import Mathlib

/-
Verification development for the dtm_loader repository.

Shallow embedding of the two source modules:

* `modules/metalink.py` — Metalink-4 manifest parsing (`load_meta4`), the
  per-item mirror loop with exponential timeout back-off
  (`_try_one_url` / `_fetch_one`), and the completion-await loop of the
  orchestrator (`fetch_meta4`, lines 147-150).
* `modules/tile_merger.py` — the block-size helper `_block`, `_safe_unlink`,
  and the delete-then-scan structure of `merge_streaming`.

Byte strings are modelled as `List Nat`; the external SHA-256 function
(`hashlib.sha256(...).hexdigest()`) is an explicit parameter `hash` of the
functions that use it, since the code only ever compares its output for
equality.  A mirror's observable behaviour during one request is a
`MirrorBehavior`; the destination file is `Option Content` (absent, or
present with its byte content).
-/

set_option autoImplicit false

abbrev Content := List Nat

/-- `u.text` of a `<url>` element; `None` in Python when the element is
empty, hence `Option String`. -/
abbrev Url := Option String

/- ───────────────────────── Metalink parser (load_meta4) ───────────────── -/

/-- One `<hash>` child of a `<file>` element, as seen by ElementTree:
its `type` attribute (if any), its `.text` (if any), and its number of
child *elements*.  The child count matters because Python's
`ElementTree.Element.__bool__` is `len(self) != 0`: an element with no
children is falsy. -/
structure XmlHash where
  typ : Option String
  text : Option String
  children : Nat
deriving DecidableEq

/-- One `<file>` element of the manifest: the `name` attribute (missing
attribute modelled as `none`, where `f.attrib["name"]` raises `KeyError`),
the texts of its `<url>` descendants in document order, and its `<hash>`
descendants in document order. -/
structure XmlFile where
  name : Option String
  urls : List Url
  hashes : List XmlHash
deriving DecidableEq

/-- One item dict produced by `load_meta4`:
`{ "name": ..., "sha": ..., "urls": [...] }`. -/
structure Meta4Item where
  name : String
  sha : Option String
  urls : List Url
deriving DecidableEq

/-- Line 58 of metalink.py:
`h = f.find(".//ml:hash[@type='sha256']", ns) or f.find(".//ml:hash", ns)`.
`find` returns the first match in document order (or `None`); `x or y`
returns `x` when `x` is truthy, and an `Element` is truthy exactly when it
has at least one child element. -/
def selectHash (hashes : List XmlHash) : Option XmlHash :=
  match hashes.find? (fun h => h.typ == some "sha256") with
  | some e => if e.children ≠ 0 then some e else hashes.head?
  | none => hashes.head?

/-- Line 59: `sha = h.text if h is not None else None`. -/
def shaOf (hashes : List XmlHash) : Option String :=
  match selectHash hashes with
  | some h => h.text
  | none => none

/-- Lines 54-63 of metalink.py: for each `<file>` element collect the url
texts, select a hash, and read `f.attrib["name"]` (raising `KeyError`,
modelled as `Except.error ()`, when the attribute is missing).  No
validation of the url list is performed. -/
def load_meta4 : List XmlFile → Except Unit (List Meta4Item)
  | [] => .ok []
  | f :: fs =>
    match f.name with
    | none => .error ()
    | some n =>
      match load_meta4 fs with
      | .error e => .error e
      | .ok items => .ok ({ name := n, sha := shaOf f.hashes, urls := f.urls } :: items)

/- ──────────────────── download helpers (_try_one_url) ─────────────────── -/

/-- The two exception classes caught by `_fetch_one`:
`aiohttp.ClientError` (includes non-2xx via `raise_for_status`) and
`asyncio.TimeoutError`. -/
inductive NetErr
  | clientError
  | timeoutError
deriving DecidableEq

/-- Exceptions that can escape `_try_one_url`: a network error, or the
`ValueError` raised on checksum mismatch. -/
inductive FetchErr
  | net (e : NetErr)
  | checksumMismatch
deriving DecidableEq

/-- Observable behaviour of one mirror for one request.
`httpError`: the request fails before the destination file is opened
(connect timeout, or non-2xx raised by `raise_for_status`).
`interrupted`: the connection drops mid-body after `written` bytes were
streamed into the freshly truncated destination file.
`fullBody`: the response body streams to completion. -/
inductive MirrorBehavior
  | httpError (e : NetErr)
  | interrupted (written : Content) (e : NetErr)
  | fullBody (body : Content)
deriving DecidableEq

/-- `aiohttp.ClientTimeout(total=..., sock_connect=..., sock_read=...)`. -/
structure Timeout where
  total : Option Nat
  sock_connect : Nat
  sock_read : Nat
deriving DecidableEq

/-- Lines 117-121: `aiohttp.ClientTimeout(total=None,
sock_connect=timeout.sock_connect * 2, sock_read=timeout.sock_read * 2)`. -/
def doubleTimeout (t : Timeout) : Timeout :=
  { total := none, sock_connect := t.sock_connect * 2, sock_read := t.sock_read * 2 }

/-- Lines 67-87 (`_try_one_url`): stream `url` into `dest`, then verify the
SHA-256 digest when `sha_expected` is truthy (`if sha_expected:` — `None`
and the empty string are both falsy).  On mismatch the file is unlinked and
`ValueError` is raised.  Returns the destination file state after the call
together with the exception, if any. -/
def try_one_url (hash : Content → String) (dest : Option Content)
    (b : MirrorBehavior) (sha_expected : Option String) :
    Option Content × Option FetchErr :=
  match b with
  | .httpError e => (dest, some (.net e))
  | .interrupted w e => (some w, some (.net e))
  | .fullBody body =>
    match sha_expected with
    | none => (some body, none)
    | some s =>
      if s = "" then (some body, none)
      else if hash body = s then (some body, none)
      else (none, some .checksumMismatch)

/-- Result of one `_fetch_one` call: destination file state, the returned
value (`.ok (some name)` for the two `return name` paths, `.ok none` for
the implicit `return None` when the url list is empty) or the escaping
exception, the `ClientTimeout` used by each attempt in order, and the urls
attempted in order. -/
structure FetchResult where
  dest : Option Content
  res : Except FetchErr (Option String)
  attempts : List Timeout
  tried : List Url

/-- Combine a failed attempt's record with the result of the remaining
mirrors. -/
def stepFail (t : Timeout) (url : Url) (r : FetchResult) : FetchResult :=
  { dest := r.dest, res := r.res, attempts := t :: r.attempts, tried := url :: r.tried }

/-- Lines 110-121 of metalink.py: the mirror loop of `_fetch_one`.
Each iteration calls `_try_one_url`; `aiohttp.ClientError` and
`asyncio.TimeoutError` are caught (re-raised on the last mirror, otherwise
the timeout doubles and the loop advances), while the `ValueError` from a
checksum mismatch is *not* caught and escapes immediately. -/
def fetch_one_loop (hash : Content → String) (name : String) (sha : Option String) :
    List (Url × MirrorBehavior) → Option Content → Timeout → FetchResult
  | [], dest, _ => { dest := dest, res := .ok none, attempts := [], tried := [] }
  | (url, b) :: rest, dest, t =>
    match try_one_url hash dest b sha with
    | (dest', none) =>
      { dest := dest', res := .ok (some name), attempts := [t], tried := [url] }
    | (dest', some .checksumMismatch) =>
      { dest := dest', res := .error .checksumMismatch, attempts := [t], tried := [url] }
    | (dest', some (.net e)) =>
      match rest with
      | [] => { dest := dest', res := .error (.net e), attempts := [t], tried := [url] }
      | r1 :: rs => stepFail t url (fetch_one_loop hash name sha (r1 :: rs) dest' (doubleTimeout t))

/-- Line 104: `if sha and dest.exists() and
hashlib.sha256(dest.read_bytes()).hexdigest() == sha: return name`.
Python truthiness of `sha`: `None` and `""` are falsy. -/
def shouldSkipCheck (hash : Content → String) (sha : Option String)
    (dest : Option Content) : Bool :=
  match sha, dest with
  | some s, some c => decide (s ≠ "") && decide (hash c = s)
  | _, _ => false

/-- Lines 90-121 (`_fetch_one`): resume check, in-place shuffle of the
item's url list (the shuffle outcome is supplied by the caller as
`shuffled`, one mirror behaviour per url), then the mirror loop starting
from `ClientTimeout(total=None, sock_connect=10, sock_read=30)`.
Returns the `FetchResult` together with the item dict as it stands after
the call (`random.shuffle(urls)` mutates `item["urls"]` in place; it is
not executed on the skip path). -/
def fetch_one (hash : Content → String) (item : Meta4Item) (dest : Option Content)
    (shuffled : List (Url × MirrorBehavior)) : FetchResult × Meta4Item :=
  if shouldSkipCheck hash item.sha dest then
    ({ dest := dest, res := .ok (some item.name), attempts := [], tried := [] }, item)
  else
    (fetch_one_loop hash item.name item.sha shuffled dest
      { total := none, sock_connect := 10, sock_read := 30 },
     { item with urls := shuffled.map Prod.fst })

/- ─────────────────── orchestrator await loop (fetch_meta4) ────────────── -/

/-- Lines 149-150 of metalink.py:
`for coro in tqdm(asyncio.as_completed(tasks), ...): await coro`.
The input is the per-item results in completion order.  `await coro`
re-raises the first stored exception, aborting the loop; results of `ok`
completions are discarded by the code, recorded here as the list of values
successfully awaited before the loop ended. -/
def fetch_meta4_loop :
    List (Except FetchErr (Option String)) → List (Option String) × Option FetchErr
  | [] => ([], none)
  | .ok v :: rs =>
    let r := fetch_meta4_loop rs
    (v :: r.1, r.2)
  | .error e :: _ => ([], some e)

/-- The values of the `ok` results of a result list, in order. -/
def okValues : List (Except FetchErr (Option String)) → List (Option String)
  | [] => []
  | .ok v :: rs => v :: okValues rs
  | .error _ :: rs => okValues rs

/- ───────────────────────── tile_merger.py ─────────────────────────────── -/

/-- Lines 25-27 of tile_merger.py:
`return max(16, min(512, (size_px // 16) * 16))`. -/
def _block (size_px : Nat) : Nat :=
  max 16 (min 512 (size_px / 16 * 16))

/-- Lines 30-35: `path.unlink()` with `FileNotFoundError` swallowed; the
argument and result are the existence of the file. -/
def _safe_unlink (outExists : Bool) : Bool :=
  match outExists with
  | true => false
  | false => false

/-- Steps of `merge_streaming` relevant to its error exit, in execution
order. -/
inductive MergeEvent
  | unlinkOutput
  | scanTiles
  | raiseNoTifs
  | writeOutput
deriving DecidableEq

/-- The filesystem state `merge_streaming` interacts with: whether the
output file exists, and the `*.tif` files found under the tile
directory. -/
structure MergeState where
  outExists : Bool
  tifs : List String
deriving DecidableEq

/-- Terminal outcome of `merge_streaming`: normal return, or the
`RuntimeError("No *.tif files found in ...")`. -/
inductive MergeOutcome
  | ok
  | noTifsError
deriving DecidableEq

/-- Lines 48-95 of tile_merger.py: `_safe_unlink(out_tif)` first, then the
`rglob("*.tif")` scan, then either the `RuntimeError` (empty scan) or the
windowed writes producing the output file.  The raster arithmetic of the
non-empty branch is external library work with no bearing on the claims;
its observable filesystem effect is that the output file is (re)created. -/
def merge_streaming (s : MergeState) : MergeState × MergeOutcome × List MergeEvent :=
  let s1 : MergeState := { s with outExists := _safe_unlink s.outExists }
  if s1.tifs.isEmpty then
    (s1, .noTifsError, [.unlinkOutput, .scanTiles, .raiseNoTifs])
  else
    ({ s1 with outExists := true }, .ok, [.unlinkOutput, .scanTiles, .writeOutput])

/- ─────────────────── auxiliary notions for the mirror loop ────────────── -/

/-- Behaviours whose exception is caught by the mirror loop (network or
timeout failure, not a checksum mismatch). -/
def isNetFailB : MirrorBehavior → Bool
  | .httpError _ => true
  | .interrupted _ _ => true
  | .fullBody _ => false

/-- The caught exception class of a failing behaviour. -/
def netErrOf : MirrorBehavior → NetErr
  | .httpError e => e
  | .interrupted _ e => e
  | .fullBody _ => .clientError

/-- Destination file state after a run of network-failing attempts:
`httpError` never opens the file, `interrupted` truncates and leaves the
written fragment behind. -/
def destAfterNetFails : Option Content → List MirrorBehavior → Option Content
  | dest, [] => dest
  | dest, .httpError _ :: rest => destAfterNetFails dest rest
  | _, .interrupted w _ :: rest => destAfterNetFails (some w) rest
  | dest, .fullBody _ :: rest => destAfterNetFails dest rest

/-- The sequence of timeouts used by `n` consecutive attempts starting from
`t`, doubling after each. -/
def timeoutSeq (t : Timeout) : Nat → List Timeout
  | 0 => []
  | n + 1 => t :: timeoutSeq (doubleTimeout t) n

/- ───────────────────── unfolding lemmas for the loop ──────────────────── -/

theorem fetch_loop_nil (hash : Content → String) (name : String) (sha : Option String)
    (dest : Option Content) (t : Timeout) :
    fetch_one_loop hash name sha [] dest t =
      { dest := dest, res := .ok none, attempts := [], tried := [] } := rfl

theorem fetch_loop_cons_ok (hash : Content → String) (name : String) (sha : Option String)
    (url : Url) (b : MirrorBehavior) (rest : List (Url × MirrorBehavior))
    (dest : Option Content) (t : Timeout) (dest' : Option Content)
    (h : try_one_url hash dest b sha = (dest', none)) :
    fetch_one_loop hash name sha ((url, b) :: rest) dest t =
      { dest := dest', res := .ok (some name), attempts := [t], tried := [url] } := by
  unfold fetch_one_loop
  rw [h]

theorem fetch_loop_cons_mismatch (hash : Content → String) (name : String)
    (sha : Option String) (url : Url) (b : MirrorBehavior)
    (rest : List (Url × MirrorBehavior)) (dest : Option Content) (t : Timeout)
    (dest' : Option Content)
    (h : try_one_url hash dest b sha = (dest', some .checksumMismatch)) :
    fetch_one_loop hash name sha ((url, b) :: rest) dest t =
      { dest := dest', res := .error .checksumMismatch, attempts := [t], tried := [url] } := by
  unfold fetch_one_loop
  rw [h]

theorem fetch_loop_single_net (hash : Content → String) (name : String)
    (sha : Option String) (url : Url) (b : MirrorBehavior)
    (dest : Option Content) (t : Timeout) (dest' : Option Content) (e : NetErr)
    (h : try_one_url hash dest b sha = (dest', some (.net e))) :
    fetch_one_loop hash name sha [(url, b)] dest t =
      { dest := dest', res := .error (.net e), attempts := [t], tried := [url] } := by
  unfold fetch_one_loop
  rw [h]

theorem fetch_loop_cons_net_more (hash : Content → String) (name : String)
    (sha : Option String) (url : Url) (b : MirrorBehavior)
    (r1 : Url × MirrorBehavior) (rs : List (Url × MirrorBehavior))
    (dest : Option Content) (t : Timeout) (dest' : Option Content) (e : NetErr)
    (h : try_one_url hash dest b sha = (dest', some (.net e))) :
    fetch_one_loop hash name sha ((url, b) :: r1 :: rs) dest t =
      stepFail t url (fetch_one_loop hash name sha (r1 :: rs) dest' (doubleTimeout t)) := by
  conv_lhs => rw [fetch_one_loop, h]

theorem doubleTimeout_mk (c r : Nat) :
    doubleTimeout { total := none, sock_connect := c, sock_read := r } =
      { total := none, sock_connect := c * 2, sock_read := r * 2 } := rfl

/-- A non-empty mirror list always produces at least one attempt. -/
theorem fetch_loop_attempts_ne_nil (hash : Content → String) (name : String)
    (sha : Option String) (m : Url × MirrorBehavior)
    (rest : List (Url × MirrorBehavior)) (dest : Option Content) (t : Timeout) :
    (fetch_one_loop hash name sha (m :: rest) dest t).attempts ≠ [] := by
  obtain ⟨url, b⟩ := m
  rcases h : try_one_url hash dest b sha with ⟨dest', err⟩
  cases err with
  | none =>
    rw [fetch_loop_cons_ok hash name sha url b rest dest t dest' h]
    simp
  | some fe =>
    cases fe with
    | checksumMismatch =>
      rw [fetch_loop_cons_mismatch hash name sha url b rest dest t dest' h]
      simp
    | net e =>
      cases rest with
      | nil =>
        rw [fetch_loop_single_net hash name sha url b dest t dest' e h]
        simp
      | cons r1 rs =>
        rw [fetch_loop_cons_net_more hash name sha url b r1 rs dest t dest' e h]
        simp [stepFail]

/- ─────────────────────────── chain lemmas ─────────────────────────────── -/

/-- When every mirror attempt fails with a caught network error, the loop
tries each mirror exactly once in order, doubles the timeout between
attempts, re-raises the last attempt's error, and leaves the destination
file in whatever state the sequence of truncating writes produced. -/
theorem fetch_loop_netfail (hash : Content → String) (name : String) (sha : Option String)
    (u : Url) (b : MirrorBehavior) (hb : isNetFailB b = true) :
    ∀ pre : List (Url × MirrorBehavior), (∀ p ∈ pre, isNetFailB p.2 = true) →
    ∀ (dest : Option Content) (t : Timeout),
    fetch_one_loop hash name sha (pre ++ [(u, b)]) dest t =
      { dest := destAfterNetFails dest ((pre ++ [(u, b)]).map Prod.snd),
        res := .error (.net (netErrOf b)),
        attempts := timeoutSeq t (pre.length + 1),
        tried := (pre ++ [(u, b)]).map Prod.fst } := by
  intro pre
  induction pre with
  | nil =>
    intro _ dest t
    rw [List.nil_append]
    cases b with
    | httpError e =>
      rw [fetch_loop_single_net hash name sha u (.httpError e) dest t dest e rfl]
      simp [destAfterNetFails, timeoutSeq, netErrOf]
    | interrupted w e =>
      rw [fetch_loop_single_net hash name sha u (.interrupted w e) dest t (some w) e rfl]
      simp [destAfterNetFails, timeoutSeq, netErrOf]
    | fullBody body => simp [isNetFailB] at hb
  | cons p pre' ih =>
    intro hpre dest t
    obtain ⟨u', b'⟩ := p
    have hb' : isNetFailB b' = true := hpre (u', b') (by simp)
    have hpre' : ∀ q ∈ pre', isNetFailB q.2 = true := fun q hq => hpre q (by simp [hq])
    rcases hrest : pre' ++ [(u, b)] with _ | ⟨r1, rs⟩
    · exact absurd hrest (by simp)
    · cases b' with
      | httpError e' =>
        rw [List.cons_append, hrest,
          fetch_loop_cons_net_more hash name sha u' (.httpError e') r1 rs dest t dest e' rfl,
          ← hrest, ih hpre' dest (doubleTimeout t)]
        simp [stepFail, destAfterNetFails, timeoutSeq]
      | interrupted w e' =>
        rw [List.cons_append, hrest,
          fetch_loop_cons_net_more hash name sha u' (.interrupted w e') r1 rs dest t (some w) e' rfl,
          ← hrest, ih hpre' (some w) (doubleTimeout t)]
        simp [stepFail, destAfterNetFails, timeoutSeq]
      | fullBody body => simp [isNetFailB] at hb'

/-- When the attempts preceding some mirror all fail with caught network
errors and that mirror streams a body whose digest does not match the
declared (non-empty) checksum, the `ValueError` escapes the loop at once:
the destination file is deleted, the mirrors after the mismatching one are
never tried, and the loop's result is the mismatch error. -/
theorem fetch_loop_mismatch_chain (hash : Content → String) (name : String) (s : String)
    (hs : s ≠ "") (u : Url) (body : Content) (hb : hash body ≠ s)
    (rest : List (Url × MirrorBehavior)) :
    ∀ pre : List (Url × MirrorBehavior), (∀ p ∈ pre, isNetFailB p.2 = true) →
    ∀ (dest : Option Content) (t : Timeout),
    fetch_one_loop hash name (some s) (pre ++ (u, .fullBody body) :: rest) dest t =
      { dest := none, res := .error .checksumMismatch,
        attempts := timeoutSeq t (pre.length + 1),
        tried := pre.map Prod.fst ++ [u] } := by
  intro pre
  induction pre with
  | nil =>
    intro _ dest t
    rw [List.nil_append]
    have htry : try_one_url hash dest (.fullBody body) (some s) =
        (none, some .checksumMismatch) := by
      simp [try_one_url, hs, hb]
    rw [fetch_loop_cons_mismatch hash name (some s) u _ rest dest t none htry]
    simp [timeoutSeq]
  | cons p pre' ih =>
    intro hpre dest t
    obtain ⟨u', b'⟩ := p
    have hb' : isNetFailB b' = true := hpre (u', b') (by simp)
    have hpre' : ∀ q ∈ pre', isNetFailB q.2 = true := fun q hq => hpre q (by simp [hq])
    rcases hrest : pre' ++ (u, MirrorBehavior.fullBody body) :: rest with _ | ⟨r1, rs⟩
    · exact absurd hrest (by simp)
    · cases b' with
      | httpError e' =>
        rw [List.cons_append, hrest,
          fetch_loop_cons_net_more hash name (some s) u' (.httpError e') r1 rs dest t dest e' rfl,
          ← hrest, ih hpre' dest (doubleTimeout t)]
        simp [stepFail, timeoutSeq]
      | interrupted w e' =>
        rw [List.cons_append, hrest,
          fetch_loop_cons_net_more hash name (some s) u' (.interrupted w e') r1 rs dest t (some w) e' rfl,
          ← hrest, ih hpre' (some w) (doubleTimeout t)]
        simp [stepFail, timeoutSeq]
      | fullBody body' => simp [isNetFailB] at hb'

/-- Whatever the mirrors do, the `k`-th attempt of the loop (0-based) uses
`ClientTimeout(total=None, sock_connect=c * 2 ^ k, sock_read=r * 2 ^ k)`
when the loop starts from `(None, c, r)`. -/
theorem fetch_loop_timeouts (hash : Content → String) (name : String) (sha : Option String) :
    ∀ (ms : List (Url × MirrorBehavior)) (dest : Option Content) (c r k : Nat),
      k < (fetch_one_loop hash name sha ms dest
            { total := none, sock_connect := c, sock_read := r }).attempts.length →
      (fetch_one_loop hash name sha ms dest
          { total := none, sock_connect := c, sock_read := r }).attempts.get? k =
        some { total := none, sock_connect := c * 2 ^ k, sock_read := r * 2 ^ k } := by
  intro ms
  induction ms with
  | nil =>
    intro dest c r k hk
    rw [fetch_loop_nil] at hk
    simp at hk
  | cons m rest ih =>
    intro dest c r k hk
    obtain ⟨url, b⟩ := m
    rcases h : try_one_url hash dest b sha with ⟨dest', err⟩
    cases err with
    | none =>
      rw [fetch_loop_cons_ok hash name sha url b rest dest _ dest' h] at hk ⊢
      simp only [List.length_singleton, Nat.lt_one_iff] at hk
      subst hk
      simp
    | some fe =>
      cases fe with
      | checksumMismatch =>
        rw [fetch_loop_cons_mismatch hash name sha url b rest dest _ dest' h] at hk ⊢
        simp only [List.length_singleton, Nat.lt_one_iff] at hk
        subst hk
        simp
      | net e =>
        cases rest with
        | nil =>
          rw [fetch_loop_single_net hash name sha url b dest _ dest' e h] at hk ⊢
          simp only [List.length_singleton, Nat.lt_one_iff] at hk
          subst hk
          simp
        | cons r1 rs =>
          rw [fetch_loop_cons_net_more hash name sha url b r1 rs dest _ dest' e h] at hk ⊢
          rw [doubleTimeout_mk] at hk ⊢
          simp only [stepFail, List.length_cons] at hk ⊢
          cases k with
          | zero => simp
          | succ k' =>
            have hk' : k' < (fetch_one_loop hash name sha (r1 :: rs) dest'
                { total := none, sock_connect := c * 2, sock_read := r * 2 }).attempts.length := by
              omega
            have hgoal := ih dest' (c * 2) (r * 2) k' hk'
            simp only [List.get?_cons_succ]
            rw [hgoal]
            have h1 : c * 2 * 2 ^ k' = c * 2 ^ (k' + 1) := by ring
            have h2 : r * 2 * 2 ^ k' = r * 2 ^ (k' + 1) := by ring
            rw [h1, h2]

/-- Characterisation of the resume check. -/
theorem shouldSkipCheck_eq_true_iff (hash : Content → String) (sha : Option String)
    (dest : Option Content) :
    shouldSkipCheck hash sha dest = true ↔
      ∃ s c, sha = some s ∧ dest = some c ∧ s ≠ "" ∧ hash c = s := by
  cases sha with
  | none => simp [shouldSkipCheck]
  | some s =>
    cases dest with
    | none => simp [shouldSkipCheck]
    | some c => simp [shouldSkipCheck]

/-- `True` on the results that `await` re-raises nothing for. -/
def isOkB : Except FetchErr (Option String) → Bool
  | .ok _ => true
  | .error _ => false

/- ───────────────────────── concrete instances ─────────────────────────── -/

/-- A digest function for examples whose output is never empty. -/
def hashH : Content → String := fun _ => "h"

/-- A digest function for the checksum-mismatch examples: content `[1]`
digests to the declared checksum `"G"`, everything else to `"X"`. -/
def hashG : Content → String := fun c => if c = [1] then "G" else "X"

def c1Entry : XmlFile :=
  { name := some "f.tif",
    urls := [some "http://m"],
    hashes := [{ typ := none, text := some "AAA", children := 0 },
               { typ := some "sha256", text := some "BBB", children := 0 }] }

def c5Entry : XmlFile := { name := some "a", urls := [], hashes := [] }

def itemC2 : Meta4Item := { name := "f", sha := some "G", urls := [some "u1", some "u2"] }

def mirrorsC2 : List (Url × MirrorBehavior) :=
  [(some "u1", .fullBody [2]), (some "u2", .fullBody [1])]

def itemC4 : Meta4Item := { name := "g", sha := none, urls := [some "u1"] }

def mirrorsC4 : List (Url × MirrorBehavior) :=
  [(some "u1", .interrupted [7] .timeoutError)]

def itemC6 : Meta4Item := { name := "f6", sha := some "h", urls := [some "u1"] }

def itemC7 : Meta4Item := { name := "f7", sha := none, urls := [some "u1", some "u2"] }

def mirrorsC7 : List (Url × MirrorBehavior) :=
  [(some "u2", .httpError .clientError), (some "u1", .fullBody [])]

def itemC8 : Meta4Item := { name := "f8", sha := none, urls := [some "u1", some "u2"] }

def mirrorsC8 : List (Url × MirrorBehavior) :=
  [(some "u1", .httpError .clientError), (some "u2", .httpError .timeoutError)]

/- ─────────────────────────── claim theorems ───────────────────────────── -/

/-- Claim C1 (code bug): the spec says a SHA-256-typed hash element takes
priority over an untyped one, and that an untyped hash is used only when no
typed one exists.  Evaluating `load_meta4` on a file entry holding an
untyped `<hash>AAA</hash>` followed by `<hash type="sha256">BBB</hash>`
shows the code picks `"AAA"`: the `find(typed) or find(any)` idiom on line
58 discards the typed match because a childless ElementTree element is
falsy, so the first hash in document order wins regardless of its type. -/
theorem c1_untyped_hash_wins :
    load_meta4 [c1Entry] =
      .ok [{ name := "f.tif", sha := some "AAA", urls := [some "http://m"] }] := rfl

/-- Claim C2 (counterexample): declared checksum `"G"`, two mirrors; the
first streams a body whose digest is `"X" ≠ "G"`, the second a body whose
digest matches.  `_fetch_one` ends with the uncaught `ValueError` having
tried only the first mirror, although the second mirror remains and its
body would verify — refuting "proceeds to try the next mirror" and
"resolves Failed only when no mirrors remain". -/
theorem c2_mismatch_aborts_cex :
    (fetch_one hashG itemC2 none mirrorsC2).1.res = .error .checksumMismatch ∧
    (fetch_one hashG itemC2 none mirrorsC2).1.tried = [some "u1"] ∧
    try_one_url hashG none (.fullBody [1]) (some "G") = (some [1], none) :=
  ⟨rfl, rfl, rfl⟩

/-- Claim C2 (amended): when a fully streamed download's recomputed digest
differs from the declared (non-empty) checksum, the fetcher deletes the
written destination file, but the `ValueError` is not among the exceptions
the mirror loop catches: it escapes immediately, the remaining mirrors are
never attempted, and the item fails with the mismatch error even though
mirrors remain. -/
theorem c2_mismatch_aborts (hash : Content → String) (item : Meta4Item) (s : String)
    (hsha : item.sha = some s) (hs : s ≠ "") (dest : Option Content)
    (hskip : shouldSkipCheck hash item.sha dest = false)
    (pre : List (Url × MirrorBehavior)) (hpre : ∀ p ∈ pre, isNetFailB p.2 = true)
    (u : Url) (body : Content) (hb : hash body ≠ s)
    (rest : List (Url × MirrorBehavior)) :
    (fetch_one hash item dest (pre ++ (u, .fullBody body) :: rest)).1.res =
        .error .checksumMismatch ∧
    (fetch_one hash item dest (pre ++ (u, .fullBody body) :: rest)).1.dest = none ∧
    (fetch_one hash item dest (pre ++ (u, .fullBody body) :: rest)).1.tried =
        pre.map Prod.fst ++ [u] := by
  have hcond : ¬ (shouldSkipCheck hash item.sha dest = true) := by simp [hskip]
  unfold fetch_one
  rw [if_neg hcond, hsha,
    fetch_loop_mismatch_chain hash item.name s hs u body hb rest pre hpre dest
      { total := none, sock_connect := 10, sock_read := 30 }]
  exact ⟨rfl, rfl, rfl⟩

theorem c2_mismatch_aborts_witness :
    (fetch_one hashG itemC2 none
        ([(some "u1", .httpError .clientError)] ++
          (some "u2", .fullBody [2]) :: [(some "u3", .fullBody [1])])).1.res =
        .error .checksumMismatch ∧
    (fetch_one hashG itemC2 none
        ([(some "u1", .httpError .clientError)] ++
          (some "u2", .fullBody [2]) :: [(some "u3", .fullBody [1])])).1.dest = none ∧
    (fetch_one hashG itemC2 none
        ([(some "u1", .httpError .clientError)] ++
          (some "u2", .fullBody [2]) :: [(some "u3", .fullBody [1])])).1.tried =
        [((some "u1" : Url), MirrorBehavior.httpError NetErr.clientError)].map Prod.fst ++
          [some "u2"] :=
  c2_mismatch_aborts hashG itemC2 "G" rfl (by decide) none rfl
    [(some "u1", .httpError .clientError)] (by decide) (some "u2") [2] (by decide)
    [(some "u3", .fullBody [1])]

/-- Claim C3 (counterexample): two items; the first completion awaited by
`fetch_meta4` carries an exception, the second resolved successfully.  The
await loop ends at the first failure with nothing aggregated: the
successful item never appears, refuting "does not stop early" and "each
item appears exactly once in the final aggregate". -/
theorem c3_stops_early_cex :
    fetch_meta4_loop [.error (.net .clientError), .ok (some "a")] =
      ([], some (.net .clientError)) := rfl

/-- Claim C3 (amended): `fetch_meta4` awaits completions in completion
order and propagates the first item failure, aborting the loop; only the
successful completions awaited before that failure are processed (and even
their values are discarded by the code), while later completions are never
awaited.  All items are processed only when none fails. -/
theorem c3_stops_early (pre post : List (Except FetchErr (Option String))) (e : FetchErr)
    (hpre : ∀ r ∈ pre, isOkB r = true) :
    fetch_meta4_loop (pre ++ .error e :: post) = (okValues pre, some e) := by
  induction pre with
  | nil => rfl
  | cons r rs ih =>
    cases r with
    | ok v =>
      have hrs : ∀ x ∈ rs, isOkB x = true := fun x hx => hpre x (by simp [hx])
      simp only [List.cons_append, fetch_meta4_loop, okValues, List.append_eq]
      rw [ih hrs]
    | error e' =>
      have hcontra := hpre (.error e') (by simp)
      simp [isOkB] at hcontra

theorem c3_stops_early_witness :
    fetch_meta4_loop ([.ok (some "a")] ++ .error .checksumMismatch :: [.ok none]) =
      (okValues [.ok (some "a")], some .checksumMismatch) :=
  c3_stops_early [.ok (some "a")] [.ok none] .checksumMismatch (by decide)

/-- Claim C4 (counterexample): one mirror, whose connection drops after
`[7]` was streamed into the destination file.  The item fails with the
final attempt's error, but the partially written file remains on disk —
refuting "no partial file remains on disk under the item's destination
name" (the code unlinks the file only on checksum mismatch, never on a
network failure). -/
theorem c4_partial_file_remains_cex :
    (fetch_one hashH itemC4 none mirrorsC4).1.res = .error (.net .timeoutError) ∧
    (fetch_one hashH itemC4 none mirrorsC4).1.dest = some [7] :=
  ⟨rfl, rfl⟩

/-- Claim C4 (amended): when every mirror fails with a caught network or
timeout error, the item fails carrying the final attempt's error and each
mirror is attempted exactly once, in order; however the destination file is
left in the state produced by the sequence of truncating writes — the last
partially written body, if any, remains on disk. -/
theorem c4_all_mirrors_fail (hash : Content → String) (item : Meta4Item)
    (dest : Option Content) (hskip : shouldSkipCheck hash item.sha dest = false)
    (pre : List (Url × MirrorBehavior)) (hpre : ∀ p ∈ pre, isNetFailB p.2 = true)
    (u : Url) (b : MirrorBehavior) (hb : isNetFailB b = true) :
    (fetch_one hash item dest (pre ++ [(u, b)])).1.res = .error (.net (netErrOf b)) ∧
    (fetch_one hash item dest (pre ++ [(u, b)])).1.tried = (pre ++ [(u, b)]).map Prod.fst ∧
    (fetch_one hash item dest (pre ++ [(u, b)])).1.dest =
        destAfterNetFails dest ((pre ++ [(u, b)]).map Prod.snd) := by
  have hcond : ¬ (shouldSkipCheck hash item.sha dest = true) := by simp [hskip]
  unfold fetch_one
  rw [if_neg hcond, fetch_loop_netfail hash item.name item.sha u b hb pre hpre dest
    { total := none, sock_connect := 10, sock_read := 30 }]
  exact ⟨rfl, rfl, rfl⟩

/-- The mirror list of the C4 witness run: a reachability failure on the
first mirror, a mid-body drop on the second and last. -/
def mirrorsC4w : List (Url × MirrorBehavior) :=
  [(some "u1", .httpError .clientError), (some "u2", .interrupted [7] .timeoutError)]

theorem c4_all_mirrors_fail_witness :
    (fetch_one hashH itemC8 none mirrorsC4w).1.res = .error (.net .timeoutError) ∧
    (fetch_one hashH itemC8 none mirrorsC4w).1.tried = [some "u1", some "u2"] ∧
    (fetch_one hashH itemC8 none mirrorsC4w).1.dest = some [7] :=
  c4_all_mirrors_fail hashH itemC8 none rfl
    [(some "u1", .httpError .clientError)] (by decide)
    (some "u2") (.interrupted [7] .timeoutError) (by decide)

/-- Claim C5 (counterexample): a well-formed file entry with a `name`
attribute but zero `<url>` children parses successfully, and the parser
returns an item with an empty mirror list — refuting "parsing fails ...
[when an entry] has zero mirror URLs" and "no FetchItem with an empty
mirror list is ever returned by the parser". -/
theorem c5_empty_urls_accepted_cex :
    load_meta4 [c5Entry] = .ok [{ name := "a", sha := none, urls := [] }] := rfl

/-- Claim C5 (amended): `load_meta4` fails (with the `KeyError` from
`f.attrib["name"]`) exactly when some file entry lacks a `name` attribute;
an entry with zero mirror URLs is not rejected, so the parser can return an
item whose mirror list is empty. -/
theorem c5_fails_iff_name_missing (files : List XmlFile) :
    load_meta4 files = .error () ↔ ∃ f ∈ files, f.name = none := by
  induction files with
  | nil => simp [load_meta4]
  | cons f fs ih =>
    cases hf : f.name with
    | none => simp [load_meta4, hf]
    | some n =>
      cases hls : load_meta4 fs with
      | error e =>
        cases e
        constructor
        · intro _
          obtain ⟨g, hg, hgn⟩ := ih.mp hls
          exact ⟨g, List.mem_cons_of_mem f hg, hgn⟩
        · intro _
          simp [load_meta4, hf, hls]
      | ok items =>
        constructor
        · intro h
          simp [load_meta4, hf, hls] at h
        · rintro ⟨g, hg, hgn⟩
          rcases List.mem_cons.mp hg with rfl | hg'
          · rw [hf] at hgn
            exact Option.noConfusion hgn
          · rw [ih.mpr ⟨g, hg', hgn⟩] at hls
            exact Except.noConfusion hls

theorem c5_fails_iff_name_missing_witness :
    load_meta4 [{ name := none, urls := [some "u"], hashes := [] }] = .error () ↔
      ∃ f ∈ [({ name := none, urls := [some "u"], hashes := [] } : XmlFile)],
        f.name = none :=
  c5_fails_iff_name_missing [{ name := none, urls := [some "u"], hashes := [] }]

/-- Claim C6 (confirmed): under the assumption that the digest function
never returns the empty string (true of a SHA-256 hex digest, which always
has 64 characters), `_fetch_one` takes its immediate-return path — no
attempt, hence no network access, and the item's name returned — exactly
when the item's checksum is present, the destination file exists, and the
file's digest equals the declared checksum.  In particular an item with no
checksum is never skipped. -/
theorem c6_resume_iff (hash : Content → String) (hnz : ∀ c, hash c ≠ "")
    (item : Meta4Item) (dest : Option Content)
    (shuffled : List (Url × MirrorBehavior)) :
    ((fetch_one hash item dest shuffled).1.attempts = [] ∧
        (fetch_one hash item dest shuffled).1.res = .ok (some item.name)) ↔
      ∃ s c, item.sha = some s ∧ dest = some c ∧ hash c = s := by
  by_cases hs : shouldSkipCheck hash item.sha dest = true
  · have hfo : fetch_one hash item dest shuffled =
        ({ dest := dest, res := .ok (some item.name), attempts := [], tried := [] }, item) := by
      unfold fetch_one
      rw [if_pos hs]
    rw [hfo]
    constructor
    · intro _
      obtain ⟨s, c, hsha, hdest, _, heq⟩ := (shouldSkipCheck_eq_true_iff hash item.sha dest).mp hs
      exact ⟨s, c, hsha, hdest, heq⟩
    · intro _
      exact ⟨rfl, rfl⟩
  · have hfo : fetch_one hash item dest shuffled =
        (fetch_one_loop hash item.name item.sha shuffled dest
            { total := none, sock_connect := 10, sock_read := 30 },
          { item with urls := shuffled.map Prod.fst }) := by
      unfold fetch_one
      rw [if_neg hs]
    rw [hfo]
    constructor
    · rintro ⟨ha, hr⟩
      cases shuffled with
      | nil =>
        rw [fetch_loop_nil] at hr
        simp at hr
      | cons m rest =>
        exact absurd ha (fetch_loop_attempts_ne_nil hash item.name item.sha m rest dest _)
    · rintro ⟨s, c, hsha, hdest, heq⟩
      exact absurd ((shouldSkipCheck_eq_true_iff hash item.sha dest).mpr
        ⟨s, c, hsha, hdest, fun h0 => hnz c (h0 ▸ heq), heq⟩) hs

theorem hashH_ne_empty (c : Content) : hashH c ≠ "" := by
  show ("h" : String) ≠ ""
  decide

theorem c6_resume_iff_witness :
    (fetch_one hashH itemC6 (some []) []).1.attempts = [] ∧
      (fetch_one hashH itemC6 (some []) []).1.res = .ok (some itemC6.name) :=
  (c6_resume_iff hashH hashH_ne_empty itemC6 (some []) []).mpr
    ⟨"h", [], rfl, rfl, rfl⟩

/-- Claim C7 (counterexample): `random.shuffle(urls)` permutes the item's
url list in place.  With the parsed url list `[u1, u2]` and the (genuine)
shuffle outcome `[u2, u1]`, the item's `urls` field after the fetch differs
from the value the parser produced — refuting "the name, checksum, and
mirror-list fields hold the same values after a fetch as when the parser
produced them". -/
theorem c7_shuffle_mutates_cex :
    List.Perm (mirrorsC7.map Prod.fst) itemC7.urls ∧
    (fetch_one hashH itemC7 none mirrorsC7).2.urls ≠ itemC7.urls := by
  constructor
  · decide
  · decide

/-- Claim C7 (amended): a fetch leaves the item's `name` and `sha` fields
unchanged, and its url list holds the same urls as a multiset; but the list
is shuffled in place (whenever the resume check does not fire), so its
order may differ from the parsed order. -/
theorem c7_fields_preserved (hash : Content → String) (item : Meta4Item)
    (dest : Option Content) (shuffled : List (Url × MirrorBehavior))
    (hp : List.Perm (shuffled.map Prod.fst) item.urls) :
    (fetch_one hash item dest shuffled).2.name = item.name ∧
    (fetch_one hash item dest shuffled).2.sha = item.sha ∧
    List.Perm (fetch_one hash item dest shuffled).2.urls item.urls := by
  by_cases hs : shouldSkipCheck hash item.sha dest = true
  · have hfo : fetch_one hash item dest shuffled =
        ({ dest := dest, res := .ok (some item.name), attempts := [], tried := [] }, item) := by
      unfold fetch_one
      rw [if_pos hs]
    rw [hfo]
    exact ⟨rfl, rfl, List.Perm.refl _⟩
  · have hfo : fetch_one hash item dest shuffled =
        (fetch_one_loop hash item.name item.sha shuffled dest
            { total := none, sock_connect := 10, sock_read := 30 },
          { item with urls := shuffled.map Prod.fst }) := by
      unfold fetch_one
      rw [if_neg hs]
    rw [hfo]
    exact ⟨rfl, rfl, hp⟩

theorem c7_fields_preserved_witness :
    (fetch_one hashH itemC7 none mirrorsC7).2.name = itemC7.name ∧
    (fetch_one hashH itemC7 none mirrorsC7).2.sha = itemC7.sha ∧
    List.Perm (fetch_one hashH itemC7 none mirrorsC7).2.urls itemC7.urls :=
  c7_fields_preserved hashH itemC7 none mirrorsC7 (by decide)

/-- Claim C8 (confirmed): within one item's fetch the first attempt uses
`ClientTimeout(total=None, sock_connect=10, sock_read=30)`, and each later
attempt uses exactly double the previous attempt's connect and read
budgets, carried forward across mirrors and never reset: the `k`-th
attempt (0-based) uses `connect = 10 * 2 ^ k` and `read = 30 * 2 ^ k`,
with the total duration unbounded throughout. -/
theorem c8_timeout_schedule (hash : Content → String) (item : Meta4Item)
    (dest : Option Content) (shuffled : List (Url × MirrorBehavior)) (k : Nat)
    (hk : k < (fetch_one hash item dest shuffled).1.attempts.length) :
    (fetch_one hash item dest shuffled).1.attempts.get? k =
      some { total := none, sock_connect := 10 * 2 ^ k, sock_read := 30 * 2 ^ k } := by
  by_cases hs : shouldSkipCheck hash item.sha dest = true
  · have hfo : fetch_one hash item dest shuffled =
        ({ dest := dest, res := .ok (some item.name), attempts := [], tried := [] }, item) := by
      unfold fetch_one
      rw [if_pos hs]
    rw [hfo] at hk
    simp at hk
  · have hfo : fetch_one hash item dest shuffled =
        (fetch_one_loop hash item.name item.sha shuffled dest
            { total := none, sock_connect := 10, sock_read := 30 },
          { item with urls := shuffled.map Prod.fst }) := by
      unfold fetch_one
      rw [if_neg hs]
    rw [hfo] at hk ⊢
    exact fetch_loop_timeouts hash item.name item.sha shuffled dest 10 30 k hk

theorem c8_timeout_schedule_witness :
    (fetch_one hashH itemC8 none mirrorsC8).1.attempts.get? 1 =
      some { total := none, sock_connect := 10 * 2 ^ 1, sock_read := 30 * 2 ^ 1 } :=
  c8_timeout_schedule hashH itemC8 none mirrorsC8 1 (by decide)

/-- Claim C9 (confirmed): `_block` computes
`max(16, min(512, (size_px // 16) * 16))`, so its result is a multiple of
16 between 16 and 512 inclusive for every non-negative `size_px`, also
when `size_px < 16`. -/
theorem c9_block_bounds (n : Nat) :
    _block n = max 16 (min 512 (n / 16 * 16)) ∧
      16 ∣ _block n ∧ 16 ≤ _block n ∧ _block n ≤ 512 := by
  refine ⟨rfl, ?_, ?_, ?_⟩
  · unfold _block
    have hdvd : 16 ∣ n / 16 * 16 := dvd_mul_left 16 (n / 16)
    rcases le_total (n / 16 * 16) 512 with h | h
    · rw [min_eq_right h]
      rcases le_total 16 (n / 16 * 16) with h2 | h2
      · rw [max_eq_right h2]
        exact hdvd
      · rw [max_eq_left h2]
    · rw [min_eq_left h]
      decide
  · exact le_max_left _ _
  · exact max_le (by norm_num) (min_le_left _ _)

theorem c9_block_bounds_witness :
    _block 100 = max 16 (min 512 (100 / 16 * 16)) ∧
      16 ∣ _block 100 ∧ 16 ≤ _block 100 ∧ _block 100 ≤ 512 :=
  c9_block_bounds 100

/-- Claim C10 (confirmed): `merge_streaming` unlinks any pre-existing
output file before scanning the tile directory, so when the scan finds no
`*.tif` files the `RuntimeError` is raised after the old output is already
gone: the final state has no output file even though the merge failed, and
the unlink event precedes the scan and the raise. -/
theorem c10_unlink_before_error (s : MergeState) (h : s.tifs = []) :
    merge_streaming s =
      ({ s with outExists := false }, .noTifsError,
        [.unlinkOutput, .scanTiles, .raiseNoTifs]) := by
  have hu : _safe_unlink s.outExists = false := by
    cases hb : s.outExists <;> rfl
  simp [merge_streaming, hu, h]

theorem c10_unlink_before_error_witness :
    merge_streaming { outExists := true, tifs := [] } =
      ({ outExists := false, tifs := [] }, .noTifsError,
        [.unlinkOutput, .scanTiles, .raiseNoTifs]) :=
  c10_unlink_before_error { outExists := true, tifs := [] } rfl
